import Mathlib

/-!
# Verification of the stock search component

Shallow embedding of the React component in
`src/stock-app-frontend/src/App.js`: the `App` component's four pieces of
state (`ticker`, `stockData`, `loading`, `error`), the ticker input
`onChange` handler, and the `handleSearch` event handler, together with
theorems about the search flow described in the specification.

JavaScript values observable by this component are modelled by `JsValue`.
No property below depends on floating-point behaviour, so numbers are
carried as integers.
-/

namespace StockApp

/-- A JavaScript runtime value as far as this component observes it:
`undefined`, `null`, booleans, numbers, strings, arrays and plain objects.
An object is a list of key/value fields with distinct keys (JavaScript
objects cannot hold two fields with the same key). -/
inductive JsValue where
  | undefined : JsValue
  | null : JsValue
  | bool : Bool → JsValue
  | num : Int → JsValue
  | str : String → JsValue
  | arr : List JsValue → JsValue
  | obj : List (String × JsValue) → JsValue
deriving Repr

/-- JavaScript truthiness, as used by the conditions `if (!ticker)` and
`if (response.data.error)` in `App.js`: `undefined`, `null`, `false`,
`0` and the empty string are falsy; every other value, in particular any
array or object, is truthy. -/
def truthy : JsValue → Bool
  | .undefined => false
  | .null => false
  | .bool b => b
  | .num n => n != 0
  | .str s => s != ""
  | .arr _ => true
  | .obj _ => true

/-- Reading property `k` of a JavaScript value, as in `response.data.error`.
`none` models a thrown `TypeError`: reading any property of `null` or
`undefined` throws.  On an object the stored field is returned, `undefined`
when the field is absent; the code only ever reads the property named
`error`, which no string, number, boolean or array has, so on those values
the read yields `undefined`. -/
def getProp : JsValue → String → Option JsValue
  | .undefined, _ => none
  | .null, _ => none
  | .obj fields, k => some ((fields.lookup k).getD .undefined)
  | _, _ => some .undefined

/-- The component state: the four `useState` hooks of `App`.
`stockData` and `error` start as `null`, modelled by `none`. `error` holds
a `JsValue` because `setError(response.data.error)` stores whatever value
the backend put in the `error` field. -/
structure AppState where
  ticker : String
  stockData : Option JsValue
  loading : Bool
  error : Option JsValue
deriving Repr

/-- The message stored by the validation branch of `handleSearch`
(the source literal; the spec renders it in English as
"ticker code required"). -/
def validationMessage : String := "銘柄コードを入力してください。"

/-- The fixed generic message stored by the `catch` branch of
`handleSearch`, telling the user to verify the API server is running. -/
def fetchFailedMessage : String := "データの取得に失敗しました。APIサーバーが起動しているか確認してください。"

/-- The fixed base URL of the backend endpoint; the ticker is interpolated
after it as a path segment. -/
def apiBase : String := "http://127.0.0.1:5000/api/stock_data/"

/-- The single property name `handleSearch` reads off the response body. -/
def errorKey : String := "error"

/-- The initial component state: all four hooks at their `useState`
initial values. -/
def initialState : AppState :=
  { ticker := "", stockData := none, loading := false, error := none }

/-- `Char`-level model of JavaScript `toUpperCase`: the Basic Latin
letters `a`–`z` (code points 97–122) map 32 code points down to `A`–`Z`;
every other character in the modelled range is unchanged.  This agrees
with `String.prototype.toUpperCase` on the ASCII alphanumeric ticker codes
the component handles. -/
def jsUpperChar (c : Char) : Char :=
  if 97 ≤ c.toNat ∧ c.toNat ≤ 122 then Char.ofNat (c.toNat - 32) else c

/-- `String`-level model of JavaScript `toUpperCase`, mapping
`jsUpperChar` over the characters. -/
def jsToUpperCase (s : String) : String := ⟨s.data.map jsUpperChar⟩

/-- The input field's `onChange` handler:
`(e) => setTicker(e.target.value.toUpperCase())` — it stores the uppercased
raw input value as the new ticker, leaving the rest of the state alone. -/
def tickerInputChange (s : AppState) (raw : String) : AppState :=
  { s with ticker := jsToUpperCase raw }

/-- Outcome of the `axios.get` call: `success body` models a resolved
response whose `response.data` is `body` (axios resolves exactly for
2xx statuses by default), `failure err` models a rejected request, with
`err` the caught exception value. -/
inductive FetchOutcome where
  | success : JsValue → FetchOutcome
  | failure : JsValue → FetchOutcome
deriving Repr

/-- The HTTP request `handleSearch` issues from state `s`: `none` when the
validation branch returns early (no network call), otherwise the GET URL
with the ticker interpolated as a path segment. -/
def requestOf (s : AppState) : Option String :=
  if s.ticker = "" then none else some (apiBase ++ s.ticker)

/-- The state immediately after the synchronous part of a non-empty-ticker
search, before the `await` resolves: `setLoading(true)`, `setError(null)`,
`setStockData(null)` have run. -/
def searchPending (s : AppState) : AppState :=
  { s with loading := true, error := none, stockData := none }

/-- Resolution of the search from the pending state `p`: the
`try`/`catch`/`finally` of `handleSearch`.  On a resolved response the code
evaluates `response.data.error`; if that read throws (body `null` or
`undefined`) control moves to `catch`.  A truthy `error` field is stored in
`error`; otherwise the whole body is stored in `stockData`.  A rejected
request stores the fixed generic message.  `finally` sets `loading` to
`false` on every branch. -/
def resolveSearch (p : AppState) : FetchOutcome → AppState
  | .success body =>
    match getProp body errorKey with
    | none => { p with error := some (.str fetchFailedMessage), loading := false }
    | some v =>
      if truthy v then { p with error := some v, loading := false }
      else { p with stockData := some body, loading := false }
  | .failure _ => { p with error := some (.str fetchFailedMessage), loading := false }

/-- The `handleSearch` event handler, from invocation in state `s` to
termination, with the network outcome `o` supplied by the environment.
`if (!ticker)` is JavaScript string truthiness: the early-return validation
branch is taken exactly when the ticker is the empty string, and it only
sets `error`. -/
def handleSearch (s : AppState) (o : FetchOutcome) : AppState :=
  if s.ticker = "" then { s with error := some (.str validationMessage) }
  else resolveSearch (searchPending s) o

/-- The four mutually exclusive ways a run of `handleSearch` can end,
named after the spec's error taxonomy. -/
inductive SearchClass where
  | ok : SearchClass
  | validationError : SearchClass
  | domainError : SearchClass
  | transportError : SearchClass
deriving DecidableEq, Repr

/-- Which branch of `handleSearch` a run takes: the validation early
return, the `catch` path (rejection, or the `TypeError` from reading a
property of a `null`/`undefined` body), the truthy-`error`-field branch,
or the success branch. -/
def classify (s : AppState) (o : FetchOutcome) : SearchClass :=
  if s.ticker = "" then .validationError
  else
    match o with
    | .failure _ => .transportError
    | .success body =>
      match getProp body errorKey with
      | none => .transportError
      | some v => if truthy v then .domainError else .ok

/-- The spec's example success body:
`[{"date":"2024-01-01","close":100}, {"date":"2024-01-02","close":102}]`. -/
def sampleSeries : JsValue :=
  .arr [ .obj [( "date", .str "2024-01-01" ), ( "close", .num 100 )],
         .obj [( "date", .str "2024-01-02" ), ( "close", .num 102 )] ]

/-- Idle state with the ticker "AAPL" typed in. -/
def aaplState : AppState := { initialState with ticker := "AAPL" }

/-- Idle state whose ticker is a single space: non-empty but
whitespace-only, reachable by typing a space into the input field. -/
def wsState : AppState := { initialState with ticker := " " }

/-- A response body that contains an `error` field whose value is the
empty string. -/
def emptyErrorBody : JsValue := .obj [( errorKey, .str "" )]

/-- The spec's example domain-error body `{ "error": "not found" }`. -/
def notFoundBody : JsValue := .obj [( errorKey, .str "not found" )]

/-- A state holding chart data from an earlier successful search, with the
ticker cleared back to empty. -/
def staleState : AppState :=
  { ticker := "", stockData := some sampleSeries, loading := false, error := none }

/-- A state holding both leftover chart data and a leftover error message
from earlier searches. -/
def dirtyState : AppState :=
  { ticker := "AAPL", stockData := some (.arr []), loading := false,
    error := some (.str "old message") }

/-! ## Helper lemmas -/

/-- `Char.ofNat` on a code point below the surrogate range round-trips
through `toNat`. -/
theorem toNat_ofNat_valid (n : Nat) (h : n < 55296) : (Char.ofNat n).toNat = n := by
  simp [Char.ofNat, Char.toNat, Nat.isValidChar, h, Char.ofNatAux, UInt32.toNat,
    BitVec.toNat_ofNatLt]

/-- Uppercasing a character twice is the same as uppercasing it once:
the image of the lowercase range lies outside that range. -/
theorem jsUpperChar_idem (c : Char) : jsUpperChar (jsUpperChar c) = jsUpperChar c := by
  by_cases h : 97 ≤ c.toNat ∧ c.toNat ≤ 122
  · have hv : (Char.ofNat (c.toNat - 32)).toNat = c.toNat - 32 :=
      toNat_ofNat_valid _ (by omega)
    have h1 : jsUpperChar c = Char.ofNat (c.toNat - 32) := if_pos h
    rw [h1]
    unfold jsUpperChar
    rw [if_neg]
    rw [hv]
    omega
  · have h1 : jsUpperChar c = c := if_neg h
    rw [h1, h1]

/-- `jsToUpperCase` is idempotent, so a value it produced is already
uppercase. -/
theorem jsToUpperCase_idem (s : String) : jsToUpperCase (jsToUpperCase s) = jsToUpperCase s := by
  simp only [jsToUpperCase, List.map_map, Function.comp_def, jsUpperChar_idem]

/-- Every branch of the `try`/`catch` ends in the `finally`, which sets
`loading := false`. -/
theorem resolveSearch_loading (p : AppState) (o : FetchOutcome) :
    (resolveSearch p o).loading = false := by
  unfold resolveSearch
  cases o with
  | failure e => rfl
  | success body =>
    cases h : getProp body errorKey with
    | none => simp [h]
    | some v => cases ht : truthy v <;> simp [h, ht]

/-- Resolution never touches the ticker field. -/
theorem resolveSearch_ticker (p : AppState) (o : FetchOutcome) :
    (resolveSearch p o).ticker = p.ticker := by
  unfold resolveSearch
  cases o with
  | failure e => rfl
  | success body =>
    cases h : getProp body errorKey with
    | none => simp [h]
    | some v => cases ht : truthy v <;> simp [h, ht]

/-! ## Claims -/

/-- C1, counterexample: the ticker `" "` is non-empty but consists only of
whitespace; `handleSearch` on it passes the `!ticker` check, so a network
request is issued, and a resolved success body is stored as `series` while
`error` stays `null` instead of the validation message.  Moreover the
validation message the code stores for the empty ticker is the Japanese
source literal, not the spec's English rendering. -/
theorem C1_counterexample :
    wsState.ticker ≠ "" ∧
    wsState.ticker.data.all Char.isWhitespace = true ∧
    requestOf wsState = some (apiBase ++ " ") ∧
    (handleSearch wsState (.success sampleSeries)).error = none ∧
    (handleSearch wsState (.success sampleSeries)).stockData = some sampleSeries ∧
    validationMessage ≠ "ticker code required" := by
  refine ⟨by decide, by decide, rfl, rfl, rfl, by decide⟩

/-- C1, amended: exactly for the empty ticker, `handleSearch` terminates
immediately with `error` set to the fixed validation message and every
other field (in particular `loading`, which is never toggled) unchanged,
and no network request is issued. -/
theorem C1_empty_ticker_validation (s : AppState) (o : FetchOutcome) (h : s.ticker = "") :
    handleSearch s o = { s with error := some (.str validationMessage) } ∧
    requestOf s = none := by
  simp [handleSearch, requestOf, h]

/-- C1, witness: the amended theorem applied to the initial state. -/
theorem C1_empty_ticker_validation_witness :
    handleSearch initialState (.failure .null)
      = { initialState with error := some (.str validationMessage) } ∧
    requestOf initialState = none :=
  C1_empty_ticker_validation initialState (.failure .null) rfl

/-- C2, counterexample: the body `{ "error": "" }` contains a string
`error` field, yet `handleSearch` stores the whole body as `series` and
leaves `error` `null`, because `if (response.data.error)` tests
truthiness, and the empty string is falsy. -/
theorem C2_counterexample :
    getProp emptyErrorBody errorKey = some (.str "") ∧
    (handleSearch aaplState (.success emptyErrorBody)).error = none ∧
    (handleSearch aaplState (.success emptyErrorBody)).stockData = some emptyErrorBody := by
  refine ⟨rfl, rfl, rfl⟩

/-- C2, amended: a domain error is detected by the truthiness of the
`error` field of the parsed body (HTTP status plays no further role once
the request resolved); whenever that field is truthy, `handleSearch`
stores its value in `error` and leaves `series` `null`. -/
theorem C2_domain_error (s : AppState) (body v : JsValue)
    (hne : s.ticker ≠ "") (hf : getProp body errorKey = some v) (ht : truthy v = true) :
    (handleSearch s (.success body)).error = some v ∧
    (handleSearch s (.success body)).stockData = none ∧
    (handleSearch s (.success body)).loading = false := by
  simp [handleSearch, hne, resolveSearch, searchPending, hf, ht]

/-- C2, witness: the spec's example body `{ "error": "not found" }`. -/
theorem C2_domain_error_witness :
    (handleSearch aaplState (.success notFoundBody)).error = some (.str "not found") ∧
    (handleSearch aaplState (.success notFoundBody)).stockData = none ∧
    (handleSearch aaplState (.success notFoundBody)).loading = false :=
  C2_domain_error aaplState notFoundBody (.str "not found") (by decide) rfl rfl

/-- C3: when the resolved body's `error` field reads without throwing and
is falsy — in particular for every ordered sequence of data points —
`handleSearch` stores the full body, exactly as received, as the new
`series`, wholesale and independently of any previous state, and leaves
`error` `null`. -/
theorem C3_series_stored (s : AppState) (body v : JsValue)
    (hne : s.ticker ≠ "") (hf : getProp body errorKey = some v) (hv : truthy v = false) :
    (handleSearch s (.success body)).stockData = some body ∧
    (handleSearch s (.success body)).error = none ∧
    (handleSearch s (.success body)).loading = false := by
  simp [handleSearch, hne, resolveSearch, searchPending, hf, hv]

/-- C3, witness: the spec's example two-point series, received in a state
still holding an older series and error, replaces both wholesale. -/
theorem C3_series_stored_witness :
    (handleSearch dirtyState (.success sampleSeries)).stockData = some sampleSeries ∧
    (handleSearch dirtyState (.success sampleSeries)).error = none ∧
    (handleSearch dirtyState (.success sampleSeries)).loading = false :=
  C3_series_stored dirtyState sampleSeries .undefined (by decide) rfl rfl

/-- C4: when the request rejects, `handleSearch` stores the fixed generic
message in `error`, leaves `series` `null`, clears `loading`, and the
resulting state does not depend on the failure detail at all (the caught
exception is only passed to `console.error`, never surfaced). -/
theorem C4_transport_error (s : AppState) (e : JsValue) (hne : s.ticker ≠ "") :
    (handleSearch s (.failure e)).error = some (.str fetchFailedMessage) ∧
    (handleSearch s (.failure e)).stockData = none ∧
    (handleSearch s (.failure e)).loading = false ∧
    (∀ e2 : JsValue, handleSearch s (.failure e) = handleSearch s (.failure e2)) := by
  refine ⟨?_, ?_, ?_, fun e2 => ?_⟩ <;>
    simp [handleSearch, hne, resolveSearch, searchPending]

/-- C4, witness: a simulated connection-refused failure on "AAPL". -/
theorem C4_transport_error_witness :
    (handleSearch aaplState (.failure (.str "connection refused"))).error
      = some (.str fetchFailedMessage) ∧
    (handleSearch aaplState (.failure (.str "connection refused"))).stockData = none ∧
    (handleSearch aaplState (.failure (.str "connection refused"))).loading = false ∧
    (∀ e2 : JsValue, handleSearch aaplState (.failure (.str "connection refused"))
      = handleSearch aaplState (.failure e2)) :=
  C4_transport_error aaplState (.str "connection refused") (by decide)

/-- C5: for a non-empty ticker the synchronous pre-request state has
`loading = true`, the final state is obtained by resolving from exactly
that pending state, and on every outcome — success, domain error and
exception path alike — the final state has `loading = false`. -/
theorem C5_loading_lifecycle (s : AppState) (hne : s.ticker ≠ "") :
    (searchPending s).loading = true ∧
    (∀ o : FetchOutcome,
      handleSearch s o = resolveSearch (searchPending s) o ∧
      (handleSearch s o).loading = false) := by
  refine ⟨rfl, fun o => ⟨?_, ?_⟩⟩
  · simp [handleSearch, hne]
  · simp [handleSearch, hne, resolveSearch_loading]

/-- C5, witness: the lifecycle on "AAPL" with the example success body. -/
theorem C5_loading_lifecycle_witness :
    (searchPending aaplState).loading = true ∧
    (handleSearch aaplState (.success sampleSeries)).loading = false :=
  ⟨ (C5_loading_lifecycle aaplState (by decide)).1,
    ((C5_loading_lifecycle aaplState (by decide)).2 (.success sampleSeries)).2 ⟩

/-- C6: for a non-empty ticker the state reached synchronously, before the
request resolves, has `loading = true`, `error = null`, `series = null`
(any previous error or series is cleared) and the ticker unchanged, and
the final state of `handleSearch` is computed from that reset state, so no
stale content can blend into the new result. -/
theorem C6_prerequest_reset (s : AppState) (o : FetchOutcome) (hne : s.ticker ≠ "") :
    (searchPending s).loading = true ∧
    (searchPending s).error = none ∧
    (searchPending s).stockData = none ∧
    (searchPending s).ticker = s.ticker ∧
    handleSearch s o = resolveSearch (searchPending s) o := by
  refine ⟨rfl, rfl, rfl, rfl, ?_⟩
  simp [handleSearch, hne]

/-- C6, witness: the reset on a state still holding old chart data and an
old error message. -/
theorem C6_prerequest_reset_witness :
    (searchPending dirtyState).loading = true ∧
    (searchPending dirtyState).error = none ∧
    (searchPending dirtyState).stockData = none ∧
    (searchPending dirtyState).ticker = dirtyState.ticker ∧
    handleSearch dirtyState (.failure .null)
      = resolveSearch (searchPending dirtyState) (.failure .null) :=
  C6_prerequest_reset dirtyState (.failure .null) (by decide)

/-- C7, counterexample: searching with an empty ticker while chart data
from a previous search is still displayed sets the validation error but
does not clear the old series — a terminated search with an error set and
`series` non-null. -/
theorem C7_counterexample :
    (handleSearch staleState (.failure .null)).error = some (.str validationMessage) ∧
    (handleSearch staleState (.failure .null)).stockData = some sampleSeries ∧
    (handleSearch staleState (.failure .null)).stockData ≠ none := by
  refine ⟨rfl, rfl, fun h => Option.noConfusion h⟩

/-- C7, amended: the three error outcomes are mutually exclusive — each
run of `handleSearch` is classified into exactly one of ok, validation
error, domain error or transport error, and an error is stored iff the
class is not ok — and the domain-error and transport-error outcomes always
leave `series` `null`; the validation outcome, however, leaves any prior
series untouched. -/
theorem C7_error_outcomes (s : AppState) (o : FetchOutcome) :
    ((handleSearch s o).error ≠ none ↔ classify s o ≠ SearchClass.ok) ∧
    ((classify s o = SearchClass.domainError ∨ classify s o = SearchClass.transportError) →
      (handleSearch s o).stockData = none) ∧
    (classify s o = SearchClass.validationError → (handleSearch s o).stockData = s.stockData) := by
  by_cases h : s.ticker = ""
  · simp [handleSearch, classify, h]
  · cases o with
    | failure e => simp [handleSearch, classify, h, resolveSearch, searchPending]
    | success body =>
      cases hf : getProp body errorKey with
      | none => simp [handleSearch, classify, h, resolveSearch, searchPending, hf]
      | some v =>
        cases ht : truthy v <;>
          simp [handleSearch, classify, h, resolveSearch, searchPending, hf, ht]

/-- C7, witness: a domain error on "AAPL" leaves `series` `null`. -/
theorem C7_error_outcomes_witness :
    (handleSearch aaplState (.success notFoundBody)).stockData = none :=
  (C7_error_outcomes aaplState (.success notFoundBody)).2.1 (Or.inl rfl)

/-- C8: the input handler stores the uppercased raw value as the new
ticker — typing "aapl" stores exactly "AAPL" — and since the ticker starts
empty and uppercasing is idempotent, the stored ticker is always an
uppercase string. -/
theorem C8_ticker_uppercase :
    (∀ (s : AppState) (raw : String),
      (tickerInputChange s raw).ticker = jsToUpperCase raw) ∧
    (tickerInputChange initialState "aapl").ticker = "AAPL" ∧
    initialState.ticker = "" ∧
    (∀ (s : AppState) (raw : String),
      jsToUpperCase (tickerInputChange s raw).ticker = (tickerInputChange s raw).ticker) := by
  refine ⟨fun s raw => rfl, by decide, rfl, fun s raw => jsToUpperCase_idem raw⟩

/-- C9: a resolved response whose body is `null` or `undefined` makes the
read of `response.data.error` throw, so `handleSearch` takes the exception
path: the fixed generic message is stored in `error`, the body is never
stored as `series`, and `loading` is cleared. -/
theorem C9_null_body (s : AppState) (body : JsValue) (hne : s.ticker ≠ "")
    (hb : body = JsValue.null ∨ body = JsValue.undefined) :
    getProp body errorKey = none ∧
    (handleSearch s (.success body)).error = some (.str fetchFailedMessage) ∧
    (handleSearch s (.success body)).stockData = none ∧
    (handleSearch s (.success body)).loading = false := by
  rcases hb with rfl | rfl <;>
    simp [handleSearch, hne, resolveSearch, searchPending, getProp]

/-- C9, witness: a `null` body on "AAPL". -/
theorem C9_null_body_witness :
    getProp JsValue.null errorKey = none ∧
    (handleSearch aaplState (.success JsValue.null)).error = some (.str fetchFailedMessage) ∧
    (handleSearch aaplState (.success JsValue.null)).stockData = none ∧
    (handleSearch aaplState (.success JsValue.null)).loading = false :=
  C9_null_body aaplState JsValue.null (by decide) (Or.inl rfl)

/-- C10: `handleSearch` never writes the ticker — on the validation,
success, domain-error and exception branches alike the ticker after
termination equals its value at invocation. -/
theorem C10_ticker_unchanged (s : AppState) (o : FetchOutcome) :
    (handleSearch s o).ticker = s.ticker := by
  by_cases h : s.ticker = ""
  · simp [handleSearch, h]
  · simp [handleSearch, h, resolveSearch_ticker, searchPending]

end StockApp
